import Mathlib

set_option autoImplicit false

/-!
Verification of the modifier engine of `pilgram/modifiers.py`.

The damage record and combat-actor collaborators live in
`pilgram/combat_classes.py`, which is not part of the sources at hand;
those two types and their operations are modelled from the spec and each
such definition is marked `Modelled from the spec:`.  Everything else is
translated directly from `pilgram/modifiers.py`.

Python numeric conventions used throughout: `int(x)` on an exact rational
value truncates toward zero, which on integers `a`, `b` is `Int.tdiv a b`
for the quotient `a/b`; the float expressions of the source
(`strength / 100`, `level / SCALING`) are modelled as exact rationals via
integer numerator/denominator pairs, which agrees with the float results
for every strength and scaling value occurring in the catalog.
-/

/-- Python exceptions raised by the embedded code. `IndexError` and
`KeyError` are the two `LookupError` subclasses (list indexing and dict
lookup); `ZeroDivisionError` is raised by division by zero;
`AttributeError` by reading a class attribute that was never assigned. -/
inductive PyErr where
  | IndexError
  | KeyError
  | ZeroDivisionError
  | AttributeError
  deriving DecidableEq, Repr

/-- Whether an exception belongs to Python's `LookupError` class. -/
def PyErr.isLookupError : PyErr → Bool
  | .IndexError => true
  | .KeyError => true
  | _ => false

/-- Python list indexing `l[i]`: non-negative indices must be below the
length, negative indices count from the end, anything else raises
`IndexError`. -/
def pyListGet {α : Type} (l : List α) (i : Int) : Except PyErr α :=
  if h : 0 ≤ i ∧ i < l.length then
    .ok (l.get ⟨i.toNat, by omega⟩)
  else if h2 : i < 0 ∧ 0 ≤ i + l.length then
    .ok (l.get ⟨(i + l.length).toNat, by omega⟩)
  else
    .error .IndexError

/-- The eight damage categories carried by the damage record (spec §2). -/
inductive DamageType where
  | slash
  | pierce
  | blunt
  | occult
  | fire
  | acid
  | freeze
  | electric
  deriving DecidableEq, Repr

/-- Modelled from the spec: the external per-category damage record
(`pilgram/combat_classes.py`, not among the sources): one integer amount
per category (spec §2, §6). -/
structure Damage where
  slash : Int
  pierce : Int
  blunt : Int
  occult : Int
  fire : Int
  acid : Int
  freeze : Int
  electric : Int
  deriving DecidableEq, Repr

/-- Read one category of a damage record (`damage.__dict__[key]`). -/
def Damage.get (d : Damage) : DamageType → Int
  | .slash => d.slash
  | .pierce => d.pierce
  | .blunt => d.blunt
  | .occult => d.occult
  | .fire => d.fire
  | .acid => d.acid
  | .freeze => d.freeze
  | .electric => d.electric

/-- Overwrite one category of a damage record
(`damage.__dict__[key] = v`). -/
def Damage.set (d : Damage) (t : DamageType) (v : Int) : Damage :=
  match t with
  | .slash => { d with slash := v }
  | .pierce => { d with pierce := v }
  | .blunt => { d with blunt := v }
  | .occult => { d with occult := v }
  | .fire => { d with fire := v }
  | .acid => { d with acid := v }
  | .freeze => { d with freeze := v }
  | .electric => { d with electric := v }

/-- Modelled from the spec: `Damage.get_empty()` — construct-empty
(spec §6). -/
def Damage.get_empty : Damage :=
  ⟨0, 0, 0, 0, 0, 0, 0, 0⟩

/-- Modelled from the spec: damage addition (`damage + other`), the
category-wise sum. -/
def Damage.add (a b : Damage) : Damage :=
  ⟨a.slash + b.slash, a.pierce + b.pierce, a.blunt + b.blunt,
   a.occult + b.occult, a.fire + b.fire, a.acid + b.acid,
   a.freeze + b.freeze, a.electric + b.electric⟩

/-- Modelled from the spec: scale-one-category (spec §6).  The factor is
the exact rational `num/den`; the scaled amount is truncated back to an
integer as Python `int()` would. -/
def Damage.scale_single_value (d : Damage) (t : DamageType) (num den : Int) : Damage :=
  d.set t ((d.get t * num).tdiv den)

/-- Modelled from the spec: add-to-one-category (spec §6). -/
def Damage.add_single_value (d : Damage) (t : DamageType) (amount : Int) : Damage :=
  d.set t (d.get t + amount)

/-- Modelled from the spec: the combat-actor capability
(`pilgram/combat_classes.py`, not among the sources): hit points and max
hit points (spec §2, §6). -/
structure CombatActor where
  hp : Int
  max_hp : Int
  deriving DecidableEq, Repr

/-- Modelled from the spec: query whether dead — `HP == 0` (spec §6). -/
def CombatActor.is_dead (a : CombatActor) : Bool :=
  a.hp == 0

/-- `get_max_hp` accessor (spec §6). -/
def CombatActor.get_max_hp (a : CombatActor) : Int :=
  a.max_hp

/-- Modelled from the spec: set HP with an allow-overheal flag (spec §6):
adds the amount, caps at max HP unless `overheal`, never drops below 0. -/
def CombatActor.modify_hp (a : CombatActor) (amount : Int) (overheal : Bool := false) : CombatActor :=
  let newHp := a.hp + amount
  let capped := if overheal then newHp else min newHp a.max_hp
  { a with hp := max capped 0 }

/-- Rarity constants from the source `Rarity` class
(`COMMON = 0`, `UNCOMMON = 1`, `RARE = 2`, `LEGENDARY = 3`). -/
inductive Rarity where
  | COMMON
  | UNCOMMON
  | RARE
  | LEGENDARY
  deriving DecidableEq, Repr

/-- Phase constant from the source `ModifierType` class. -/
def ModifierType.COMBAT_START : Nat := 0

/-- Phase constant from the source `ModifierType` class. -/
def ModifierType.PRE_ATTACK : Nat := 1

/-- Phase constant from the source `ModifierType` class. -/
def ModifierType.PRE_DEFEND : Nat := 2

/-- Phase constant from the source `ModifierType` class. -/
def ModifierType.MID_ATTACK : Nat := 3

/-- Phase constant from the source `ModifierType` class. -/
def ModifierType.MID_DEFEND : Nat := 4

/-- Phase constant from the source `ModifierType` class. -/
def ModifierType.POST_ATTACK : Nat := 5

/-- Phase constant from the source `ModifierType` class. -/
def ModifierType.POST_DEFEND : Nat := 6

/-- Phase constant from the source `ModifierType` class. -/
def ModifierType.REWARDS : Nat := 7

/-- Phase constant from the source `ModifierType` class. -/
def ModifierType.MODIFY_MAX_HP : Nat := 8

/-- Phase constant from the source `ModifierType` class. -/
def ModifierType.TURN_START : Nat := 9

/-- Class-level data of one modifier variant (the `Modifier` class
attributes of the source).  `NAME` and `SCALING` are bare annotations on
the base class: variants that never assign them (the nested sub-effect
classes) carry `none`.  `SCALING` is the exact numerator/denominator pair
of the int-or-float scaling divisor.  `rarity` is the keyword argument of
the class definition (`none` means the class is never registered). -/
structure ModClass where
  NAME : Option String
  rarity : Option Rarity
  TYPE : Nat
  OP_ORDERING : Nat := 0
  MAX_STRENGTH : Int := 0
  MIN_STRENGTH : Int := 1
  SCALING : Option (Int × Int)
  deriving DecidableEq, Repr

/-- One modifier instance (`Modifier.__init__`): the class `ID` assigned
at registration, the strength, and the remaining duration (default -1,
permanent). -/
structure ModInstance where
  ID : Nat
  strength : Int
  duration : Int
  deriving DecidableEq, Repr

/-- The module-level registry (source `_LIST`, `_RARITY_INDEX`,
`_NAME_LUT`).  `LIST` keeps every registered class with its assigned id
(which equals its position); the four tier lists are the
`_RARITY_INDEX` buckets; `NAME_LUT` records name bindings most recent
first, so a later binding for a name shadows an earlier one exactly as a
Python dict assignment overwrites. -/
structure Registry where
  LIST : List (Nat × ModClass)
  common : List (Nat × ModClass)
  uncommon : List (Nat × ModClass)
  rare : List (Nat × ModClass)
  legendary : List (Nat × ModClass)
  NAME_LUT : List (String × Nat)
  deriving DecidableEq, Repr

/-- The registry before any class definition runs. -/
def Registry.empty : Registry :=
  ⟨[], [], [], [], [], []⟩

/-- Source `Modifier.__init_subclass__` (modifiers.py lines 100-107):
when a rarity is supplied, assign the next sequential id, append to
`_LIST` and to the matching rarity bucket, and bind the display name in
`_NAME_LUT` (silently overwriting any earlier binding).  No validation of
any kind is performed.  Classes defined without a rarity are skipped
entirely.  (Every registered class of the catalog assigns `NAME`; the
`getD` default is never reached there.) -/
def registerModifier (reg : Registry) (c : ModClass) : Registry :=
  match c.rarity with
  | none => reg
  | some r =>
      let modifier_id := reg.LIST.length
      let entry := (modifier_id, c)
      { LIST := reg.LIST ++ [entry]
        common := if r = .COMMON then reg.common ++ [entry] else reg.common
        uncommon := if r = .UNCOMMON then reg.uncommon ++ [entry] else reg.uncommon
        rare := if r = .RARE then reg.rare ++ [entry] else reg.rare
        legendary := if r = .LEGENDARY then reg.legendary ++ [entry] else reg.legendary
        NAME_LUT := (c.NAME.getD "", modifier_id) :: reg.NAME_LUT }

/-- Source `get_modifier` (lines 46-48): `_LIST[modifier_id](strength)`.
List indexing follows Python semantics (`pyListGet`); instantiation uses
the default duration `-1`; the instance's `ID` is the class attribute of
the indexed class, i.e. the id assigned at registration. -/
def Registry.get_modifier (reg : Registry) (modifier_id strength : Int) : Except PyErr ModInstance :=
  match pyListGet reg.LIST modifier_id with
  | .ok entry => .ok ⟨entry.1, strength, -1⟩
  | .error e => .error e

/-- Source `get_modifier_from_name` (lines 51-53):
`_NAME_LUT[modifier_name](strength)`; a missing key raises `KeyError`. -/
def Registry.get_modifier_from_name (reg : Registry) (modifier_name : String) (strength : Int) : Except PyErr ModInstance :=
  match reg.NAME_LUT.lookup modifier_name with
  | some modifier_id => .ok ⟨modifier_id, strength, -1⟩
  | none => .error .KeyError

/-- Source `Modifier.generate` (lines 140-145):
`strength = MIN_STRENGTH + int(level / SCALING)`, then capped at
`MAX_STRENGTH` when that is nonzero.  An unset `SCALING` raises
`AttributeError`; `SCALING == 0` raises `ZeroDivisionError` (Python
division); `int()` truncates the exact quotient
`level / (num/den) = level * den / num` toward zero. -/
def Modifier.generate (c : ModClass) (level : Nat) : Except PyErr Int :=
  match c.SCALING with
  | none => .error .AttributeError
  | some (num, den) =>
      if num = 0 then .error .ZeroDivisionError
      else
        let strength := c.MIN_STRENGTH + ((level : Int) * den).tdiv num
        .ok (if c.MAX_STRENGTH ≠ 0 ∧ strength > c.MAX_STRENGTH then c.MAX_STRENGTH else strength)

/-- Source `Modifier.apply` (lines 117-123), as explicit state passing.
`f` is the variant's `function`: it receives the modifier's own duration
(already decremented when the countdown applied) together with the world
state `s`, and returns the updated duration, the updated world and its
result.  An expired modifier (duration 0) is skipped: Python returns
`None` (here `none`) and touches nothing. -/
def Modifier.apply {σ α : Type} (f : Int → σ → Int × σ × α) (duration : Int) (s : σ) : Int × σ × Option α :=
  if duration > 0 then
    let r := f (duration - 1) s
    (r.1, r.2.1, some r.2.2)
  else if duration = 0 then
    (duration, s, none)
  else
    let r := f duration s
    (r.1, r.2.1, some r.2.2)

/-- Source `_GenericDamageMult` class attributes and `__init_subclass__`
(lines 148-168): common-rarity per-category damage multiplier; `cap` is
`dmg_type.capitalize()`; pre-attack variants are called "... Affinity",
pre-defend variants "... Resistant"; `MAX_STRENGTH = 100`,
`MIN_STRENGTH = 1`, `SCALING = 2`, default ordering key 0. -/
def GenericDamageMult.mkClass (cap : String) (mod_type : Nat) : ModClass :=
  { NAME := some (cap ++ (if mod_type = ModifierType.PRE_ATTACK then " Affinity" else " Resistant"))
    rarity := some .COMMON
    TYPE := mod_type
    OP_ORDERING := 0
    MAX_STRENGTH := 100
    MIN_STRENGTH := 1
    SCALING := some (2, 1) }

/-- Source `_GenericDamageBonus` class attributes and `__init_subclass__`
(lines 176-198): common-rarity per-category flat bonus; pre-attack
variants are called "... Optimized", pre-defend variants "... shielded";
`MAX_STRENGTH = 0`, `MIN_STRENGTH = 1`, `SCALING = 2`,
`OP_ORDERING = 1`. -/
def GenericDamageBonus.mkClass (cap : String) (mod_type : Nat) : ModClass :=
  { NAME := some (cap ++ (if mod_type = ModifierType.PRE_ATTACK then " Optimized" else " shielded"))
    rarity := some .COMMON
    TYPE := mod_type
    OP_ORDERING := 1
    MAX_STRENGTH := 0
    MIN_STRENGTH := 1
    SCALING := some (2, 1) }

/-- Source `_GenericDamageAbsorb` class attributes and
`__init_subclass__` (lines 206-222): uncommon-rarity mid-defend
absorption named "... Absorption"; `MAX_STRENGTH = 100`,
`MIN_STRENGTH = 1`, `SCALING = 2`. -/
def GenericDamageAbsorb.mkClass (cap : String) : ModClass :=
  { NAME := some (cap ++ " Absorption")
    rarity := some .UNCOMMON
    TYPE := ModifierType.MID_DEFEND
    OP_ORDERING := 0
    MAX_STRENGTH := 100
    MIN_STRENGTH := 1
    SCALING := some (2, 1) }

/-- Source `_GenericDamageMult.function` (lines 170-173): scale the
tracked category by `(100 + strength) / 100` and return the new record. -/
def GenericDamageMult.function (strength : Int) (dt : DamageType) (damage : Damage) : Damage :=
  damage.scale_single_value dt (100 + strength) 100

/-- Source `_GenericDamageBonus.function` (lines 200-203): add `strength`
to the tracked category and return the new record. -/
def GenericDamageBonus.function (strength : Int) (dt : DamageType) (damage : Damage) : Damage :=
  damage.add_single_value dt strength

/-- Source `_GenericDamageAbsorb.function` (lines 224-237): when the
tracked category of the incoming damage is positive, heal the defender by
`int(element_damage * strength/100)` — bumped to 1 when the truncation
gave 0 — with overheal allowed, and write a log line.  Otherwise nothing
happens.  Returns the updated defender and whether a log line was
written. -/
def GenericDamageAbsorb.function (strength : Int) (dt : DamageType) (damage : Damage) (target : CombatActor) : CombatActor × Bool :=
  let element_damage := damage.get dt
  if element_damage > 0 then
    let hp0 := (element_damage * strength).tdiv 100
    let hp := if hp0 = 0 then 1 else hp0
    (target.modify_hp hp true, true)
  else
    (target, false)

/-- Source `IdiotGodBlessing.FreeRevive.function` (lines 766-775): when
the defender is dead, heal `int(max_hp * strength/100)` (no overheal) and
write a log line; otherwise restore one duration charge
(`self.duration += 1`).  The first component is the updated
self-duration; the last reports whether a log line was written. -/
def IdiotGodBlessing.FreeRevive.function (strength : Int) (duration : Int) (entity : CombatActor) : Int × CombatActor × Bool :=
  if entity.is_dead then
    (duration, entity.modify_hp ((entity.get_max_hp * strength).tdiv 100), true)
  else
    (duration + 1, entity, false)

/-- Source `RouletteAttack.function` (lines 745-750).  `key` stands for
the category picked by `random.choice` over the damage record's keys.
The code builds an empty record `damage_modifier`, writes `strength` into
the chosen category OF THE CONTEXT-SUPPLIED record
(`damage.__dict__[key] = self.strength` — in-place mutation), and returns
`damage + damage_modifier`.  The result is the pair (context damage
record after the call, returned damage value). -/
def RouletteAttack.function (strength : Int) (damage : Damage) (key : DamageType) : Damage × Damage :=
  let damage_modifier := Damage.get_empty
  let mutated := damage.set key strength
  (mutated, mutated.add damage_modifier)

/-- One same-phase eligible effect for dispatch analysis, tagged by its
behavior template: the damage multiplier (`_GenericDamageMult`) or the
flat bonus (`_GenericDamageBonus`). -/
inductive DamageEffect where
  | mult (strength : Int) (dt : DamageType)
  | bonus (strength : Int) (dt : DamageType)
  deriving DecidableEq, Repr

/-- The class-level ordering key of each template: multipliers inherit
`Modifier.OP_ORDERING = 0` (line 79), bonuses set `OP_ORDERING = 1`
(line 181). -/
def DamageEffect.opOrdering : DamageEffect → Nat
  | .mult _ _ => 0
  | .bonus _ _ => 1

/-- Run one effect's behavior over a damage record. -/
def DamageEffect.run : DamageEffect → Damage → Damage
  | .mult s dt, d => GenericDamageMult.function s dt d
  | .bonus s dt, d => GenericDamageBonus.function s dt d

/-- Modelled from the spec: the orchestrator dispatches the eligible
effects of one phase in ordering-key order — key 0 before key 1, stable
within a key (spec §4.3) — folding each returned damage record into the
next invocation. -/
def dispatchInOrder (effects : List DamageEffect) (d : Damage) : Damage :=
  ((effects.filter (fun e => e.opOrdering == 0)) ++
    effects.filter (fun e => e.opOrdering != 0)).foldl (fun acc e => e.run acc) d

/-- Source class (lines 240-243). -/
def SlashAttackMult : ModClass := GenericDamageMult.mkClass "Slash" ModifierType.PRE_ATTACK

/-- Source class (lines 246-249). -/
def PierceAttackMult : ModClass := GenericDamageMult.mkClass "Pierce" ModifierType.PRE_ATTACK

/-- Source class (lines 252-255). -/
def BluntAttackAttackMult : ModClass := GenericDamageMult.mkClass "Blunt" ModifierType.PRE_ATTACK

/-- Source class (lines 258-261). -/
def OccultAttackMult : ModClass := GenericDamageMult.mkClass "Occult" ModifierType.PRE_ATTACK

/-- Source class (lines 264-267). -/
def FireAttackMult : ModClass := GenericDamageMult.mkClass "Fire" ModifierType.PRE_ATTACK

/-- Source class (lines 270-273). -/
def AcidAttackMult : ModClass := GenericDamageMult.mkClass "Acid" ModifierType.PRE_ATTACK

/-- Source class (lines 276-279). -/
def FreezeAttackMult : ModClass := GenericDamageMult.mkClass "Freeze" ModifierType.PRE_ATTACK

/-- Source class (lines 282-285). -/
def ElectricAttackMult : ModClass := GenericDamageMult.mkClass "Electric" ModifierType.PRE_ATTACK

/-- Source class (lines 288-291). -/
def SlashDefendMult : ModClass := GenericDamageMult.mkClass "Slash" ModifierType.PRE_DEFEND

/-- Source class (lines 294-297). -/
def PierceDefendMult : ModClass := GenericDamageMult.mkClass "Pierce" ModifierType.PRE_DEFEND

/-- Source class (lines 300-303). -/
def BluntDefendAttackMult : ModClass := GenericDamageMult.mkClass "Blunt" ModifierType.PRE_DEFEND

/-- Source class (lines 306-309). -/
def OccultDefendMult : ModClass := GenericDamageMult.mkClass "Occult" ModifierType.PRE_DEFEND

/-- Source class (lines 312-315). -/
def FireDefendMult : ModClass := GenericDamageMult.mkClass "Fire" ModifierType.PRE_DEFEND

/-- Source class (lines 318-321). -/
def AcidDefendMult : ModClass := GenericDamageMult.mkClass "Acid" ModifierType.PRE_DEFEND

/-- Source class (lines 324-327). -/
def FreezeDefendMult : ModClass := GenericDamageMult.mkClass "Freeze" ModifierType.PRE_DEFEND

/-- Source class (lines 330-333). -/
def ElectricDefendMult : ModClass := GenericDamageMult.mkClass "Electric" ModifierType.PRE_DEFEND

/-- Source class (lines 336-339). -/
def SlashAttackBonus : ModClass := GenericDamageBonus.mkClass "Slash" ModifierType.PRE_ATTACK

/-- Source class (lines 342-345). -/
def PierceAttackBonus : ModClass := GenericDamageBonus.mkClass "Pierce" ModifierType.PRE_ATTACK

/-- Source class (lines 348-351). -/
def BluntAttackAttackBonus : ModClass := GenericDamageBonus.mkClass "Blunt" ModifierType.PRE_ATTACK

/-- Source class (lines 354-357). -/
def OccultAttackBonus : ModClass := GenericDamageBonus.mkClass "Occult" ModifierType.PRE_ATTACK

/-- Source class (lines 360-363). -/
def FireAttackBonus : ModClass := GenericDamageBonus.mkClass "Fire" ModifierType.PRE_ATTACK

/-- Source class (lines 366-369). -/
def AcidAttackBonus : ModClass := GenericDamageBonus.mkClass "Acid" ModifierType.PRE_ATTACK

/-- Source class (lines 372-375). -/
def FreezeAttackBonus : ModClass := GenericDamageBonus.mkClass "Freeze" ModifierType.PRE_ATTACK

/-- Source class (lines 378-381). -/
def ElectricAttackBonus : ModClass := GenericDamageBonus.mkClass "Electric" ModifierType.PRE_ATTACK

/-- Source class (lines 384-387). -/
def SlashDefendBonus : ModClass := GenericDamageBonus.mkClass "Slash" ModifierType.PRE_DEFEND

/-- Source class (lines 390-393). -/
def PierceDefendBonus : ModClass := GenericDamageBonus.mkClass "Pierce" ModifierType.PRE_DEFEND

/-- Source class (lines 396-399). -/
def BluntDefendAttackBonus : ModClass := GenericDamageBonus.mkClass "Blunt" ModifierType.PRE_DEFEND

/-- Source class (lines 402-405). -/
def OccultDefendBonus : ModClass := GenericDamageBonus.mkClass "Occult" ModifierType.PRE_DEFEND

/-- Source class (lines 408-411). -/
def FireDefendBonus : ModClass := GenericDamageBonus.mkClass "Fire" ModifierType.PRE_DEFEND

/-- Source class (lines 414-417). -/
def AcidDefendBonus : ModClass := GenericDamageBonus.mkClass "Acid" ModifierType.PRE_DEFEND

/-- Source class (lines 420-423). -/
def FreezeDefendBonus : ModClass := GenericDamageBonus.mkClass "Freeze" ModifierType.PRE_DEFEND

/-- Source class (lines 426-429). -/
def ElectricDefendBonus : ModClass := GenericDamageBonus.mkClass "Electric" ModifierType.PRE_DEFEND

/-- Source class `FirstHitBonus` (lines 432-448). -/
def FirstHitBonus : ModClass :=
  { NAME := some "Sneak attack", rarity := some .UNCOMMON, TYPE := ModifierType.PRE_ATTACK,
    OP_ORDERING := 1, MAX_STRENGTH := 0, MIN_STRENGTH := 1, SCALING := some (1, 2) }

/-- Source class `KillAtPercentHealth` (lines 451-467). -/
def KillAtPercentHealth : ModClass :=
  { NAME := some "Obliteration", rarity := some .RARE, TYPE := ModifierType.PRE_ATTACK,
    OP_ORDERING := 0, MAX_STRENGTH := 50, MIN_STRENGTH := 1, SCALING := some (5, 1) }

/-- Source class `Berserk` (lines 470-484). -/
def Berserk : ModClass :=
  { NAME := some "Berserk", rarity := some .UNCOMMON, TYPE := ModifierType.PRE_ATTACK,
    OP_ORDERING := 0, MAX_STRENGTH := 60, MIN_STRENGTH := 1, SCALING := some (2, 1) }

/-- Source class `ChaosBrand` (lines 487-503). -/
def ChaosBrand : ModClass :=
  { NAME := some "Chaos Brand", rarity := some .UNCOMMON, TYPE := ModifierType.PRE_ATTACK,
    OP_ORDERING := 0, MAX_STRENGTH := 200, MIN_STRENGTH := 100, SCALING := some (1, 2) }

/-- Source class `LuckyHit` (lines 506-523). -/
def LuckyHit : ModClass :=
  { NAME := some "Lucky Hit", rarity := some .UNCOMMON, TYPE := ModifierType.PRE_ATTACK,
    OP_ORDERING := 0, MAX_STRENGTH := 500, MIN_STRENGTH := 100, SCALING := some (3, 5) }

/-- Source nested class `PoisonTipped.PoisonProc` (lines 537-546): a
sub-effect defined with no rarity keyword — never registered; it assigns
neither `NAME` nor `SCALING`. -/
def PoisonTipped.PoisonProc : ModClass :=
  { NAME := none, rarity := none, TYPE := ModifierType.TURN_START,
    OP_ORDERING := 0, MAX_STRENGTH := 0, MIN_STRENGTH := 1, SCALING := none }

/-- Source class `PoisonTipped` (lines 526-551). -/
def PoisonTipped : ModClass :=
  { NAME := some "Poison Tipped", rarity := some .RARE, TYPE := ModifierType.PRE_ATTACK,
    OP_ORDERING := 0, MAX_STRENGTH := 10, MIN_STRENGTH := 1, SCALING := some (10, 1) }

/-- Source nested class `EldritchShield.TankHits` (lines 563-582): a
sub-effect defined with no rarity keyword — never registered. -/
def EldritchShield.TankHits : ModClass :=
  { NAME := none, rarity := none, TYPE := ModifierType.MID_DEFEND,
    OP_ORDERING := 0, MAX_STRENGTH := 0, MIN_STRENGTH := 1, SCALING := none }

/-- Source class `EldritchShield` (lines 554-590). -/
def EldritchShield : ModClass :=
  { NAME := some "Eldritch Shield", rarity := some .RARE, TYPE := ModifierType.COMBAT_START,
    OP_ORDERING := 0, MAX_STRENGTH := 3, MIN_STRENGTH := 1, SCALING := some (30, 1) }

/-- Source class `Vampiric` (lines 593-613). -/
def Vampiric : ModClass :=
  { NAME := some "Vampiric", rarity := some .LEGENDARY, TYPE := ModifierType.POST_ATTACK,
    OP_ORDERING := 0, MAX_STRENGTH := 10, MIN_STRENGTH := 1, SCALING := some (20, 1) }

/-- Source nested class `UnyieldingWill.FreeRevive` (lines 626-635): a
sub-effect defined with no rarity keyword — never registered. -/
def UnyieldingWill.FreeRevive : ModClass :=
  { NAME := none, rarity := none, TYPE := ModifierType.POST_DEFEND,
    OP_ORDERING := 0, MAX_STRENGTH := 0, MIN_STRENGTH := 1, SCALING := none }

/-- Source class `UnyieldingWill` (lines 616-639). -/
def UnyieldingWill : ModClass :=
  { NAME := some "Unyielding Will", rarity := some .LEGENDARY, TYPE := ModifierType.COMBAT_START,
    OP_ORDERING := 0, MAX_STRENGTH := 2, MIN_STRENGTH := 1, SCALING := some (80, 1) }

/-- Source class `BloodThirst` (lines 642-657). -/
def BloodThirst : ModClass :=
  { NAME := some "Blood Thirst", rarity := some .RARE, TYPE := ModifierType.COMBAT_START,
    OP_ORDERING := 0, MAX_STRENGTH := 20, MIN_STRENGTH := 1, SCALING := some (5, 1) }

/-- Source class `Blessed` (lines 660-671). -/
def Blessed : ModClass :=
  { NAME := some "Blessed", rarity := some .UNCOMMON, TYPE := ModifierType.MODIFY_MAX_HP,
    OP_ORDERING := 0, MAX_STRENGTH := 50, MIN_STRENGTH := 1, SCALING := some (2, 1) }

/-- Source class `Bashing` (lines 674-696). -/
def Bashing : ModClass :=
  { NAME := some "Bashing", rarity := some .LEGENDARY, TYPE := ModifierType.PRE_ATTACK,
    OP_ORDERING := 0, MAX_STRENGTH := 50, MIN_STRENGTH := 1, SCALING := some (2, 1) }

/-- Source class `Thorns` (lines 699-716). -/
def Thorns : ModClass :=
  { NAME := some "Thorns", rarity := some .UNCOMMON, TYPE := ModifierType.PRE_DEFEND,
    OP_ORDERING := 0, MAX_STRENGTH := 0, MIN_STRENGTH := 1, SCALING := some (5, 1) }

/-- Source class (lines 719-720). -/
def FireAbsorb : ModClass := GenericDamageAbsorb.mkClass "Fire"

/-- Source class (lines 723-724). -/
def AcidAbsorb : ModClass := GenericDamageAbsorb.mkClass "Acid"

/-- Source class (lines 727-728). -/
def FreezeAbsorb : ModClass := GenericDamageAbsorb.mkClass "Freeze"

/-- Source class (lines 731-732). -/
def ElectricAbsorb : ModClass := GenericDamageAbsorb.mkClass "Electric"

/-- Source class `RouletteAttack` (lines 735-750); `SCALING = 3.5`. -/
def RouletteAttack : ModClass :=
  { NAME := some "Roulette Attack", rarity := some .RARE, TYPE := ModifierType.PRE_ATTACK,
    OP_ORDERING := 0, MAX_STRENGTH := 0, MIN_STRENGTH := 1, SCALING := some (7, 2) }

/-- Source nested class `IdiotGodBlessing.FreeRevive` (lines 763-775): a
sub-effect defined with no rarity keyword — never registered. -/
def IdiotGodBlessing.FreeRevive : ModClass :=
  { NAME := none, rarity := none, TYPE := ModifierType.POST_DEFEND,
    OP_ORDERING := 0, MAX_STRENGTH := 0, MIN_STRENGTH := 1, SCALING := none }

/-- Source class `IdiotGodBlessing` (lines 753-780). -/
def IdiotGodBlessing : ModClass :=
  { NAME := some "Idiot God Blessing", rarity := some .LEGENDARY, TYPE := ModifierType.COMBAT_START,
    OP_ORDERING := 0, MAX_STRENGTH := 100, MIN_STRENGTH := 10, SCALING := some (5, 1) }

/-- Source class `Brutal` (lines 783-799). -/
def Brutal : ModClass :=
  { NAME := some "Brutality", rarity := some .UNCOMMON, TYPE := ModifierType.POST_ATTACK,
    OP_ORDERING := 0, MAX_STRENGTH := 0, MIN_STRENGTH := 1, SCALING := some (3, 1) }

/-- Source class `Ferocity` (lines 802-817). -/
def Ferocity : ModClass :=
  { NAME := some "Ferocity", rarity := some .RARE, TYPE := ModifierType.PRE_ATTACK,
    OP_ORDERING := 0, MAX_STRENGTH := 10, MIN_STRENGTH := 1, SCALING := some (10, 1) }

/-- Source class `LambEmbrace` (lines 820-833). -/
def LambEmbrace : ModClass :=
  { NAME := some "Lamb\x27s Embrace", rarity := some .RARE, TYPE := ModifierType.TURN_START,
    OP_ORDERING := 0, MAX_STRENGTH := 0, MIN_STRENGTH := 1, SCALING := some (3, 1) }

/-- Source class `EldritchSynergy` (lines 836-854). -/
def EldritchSynergy : ModClass :=
  { NAME := some "Eldritch Synergy", rarity := some .LEGENDARY, TYPE := ModifierType.PRE_ATTACK,
    OP_ORDERING := 0, MAX_STRENGTH := 0, MIN_STRENGTH := 1, SCALING := some (4, 1) }

/-- Source class `Dread` (lines 857-870); `SCALING = 1.5`. -/
def Dread : ModClass :=
  { NAME := some "Dread Aura", rarity := some .UNCOMMON, TYPE := ModifierType.TURN_START,
    OP_ORDERING := 0, MAX_STRENGTH := 0, MIN_STRENGTH := 1, SCALING := some (3, 2) }

/-- Source class `Akimbo` (lines 873-894). -/
def Akimbo : ModClass :=
  { NAME := some "Akimbo", rarity := some .LEGENDARY, TYPE := ModifierType.PRE_ATTACK,
    OP_ORDERING := 0, MAX_STRENGTH := 50, MIN_STRENGTH := 1, SCALING := some (2, 1) }

/-- Source class (lines 897-898). -/
def OccultAbsorb : ModClass := GenericDamageAbsorb.mkClass "Occult"

/-- Source class `PlayerDamageMult` (lines 901-916). -/
def PlayerDamageMult : ModClass :=
  { NAME := some "Hearth-breaker", rarity := some .RARE, TYPE := ModifierType.PRE_ATTACK,
    OP_ORDERING := 0, MAX_STRENGTH := 100, MIN_STRENGTH := 1, SCALING := some (2, 1) }

/-- Source nested class `AdditionalHelper.Helper` (lines 927-935): a
sub-effect defined with no rarity keyword — never registered. -/
def AdditionalHelper.Helper : ModClass :=
  { NAME := none, rarity := none, TYPE := ModifierType.TURN_START,
    OP_ORDERING := 0, MAX_STRENGTH := 0, MIN_STRENGTH := 1, SCALING := none }

/-- Source class `AdditionalHelper` (lines 919-943); `SCALING = 0.3`,
`MAX_STRENGTH` is left at the base default 0. -/
def AdditionalHelper : ModClass :=
  { NAME := some "Shade Helper", rarity := some .LEGENDARY, TYPE := ModifierType.COMBAT_START,
    OP_ORDERING := 0, MAX_STRENGTH := 0, MIN_STRENGTH := 1, SCALING := some (3, 10) }

/-- Every class defined in `pilgram/modifiers.py`, in definition order
(nested classes listed at the point their enclosing class body runs).
Only classes with a rarity keyword register themselves. -/
def declaredModifiers : List ModClass :=
  [SlashAttackMult, PierceAttackMult, BluntAttackAttackMult, OccultAttackMult,
   FireAttackMult, AcidAttackMult, FreezeAttackMult, ElectricAttackMult,
   SlashDefendMult, PierceDefendMult, BluntDefendAttackMult, OccultDefendMult,
   FireDefendMult, AcidDefendMult, FreezeDefendMult, ElectricDefendMult,
   SlashAttackBonus, PierceAttackBonus, BluntAttackAttackBonus, OccultAttackBonus,
   FireAttackBonus, AcidAttackBonus, FreezeAttackBonus, ElectricAttackBonus,
   SlashDefendBonus, PierceDefendBonus, BluntDefendAttackBonus, OccultDefendBonus,
   FireDefendBonus, AcidDefendBonus, FreezeDefendBonus, ElectricDefendBonus,
   FirstHitBonus, KillAtPercentHealth, Berserk, ChaosBrand, LuckyHit,
   PoisonTipped.PoisonProc, PoisonTipped,
   EldritchShield.TankHits, EldritchShield,
   Vampiric,
   UnyieldingWill.FreeRevive, UnyieldingWill,
   BloodThirst, Blessed, Bashing, Thorns,
   FireAbsorb, AcidAbsorb, FreezeAbsorb, ElectricAbsorb,
   RouletteAttack,
   IdiotGodBlessing.FreeRevive, IdiotGodBlessing,
   Brutal, Ferocity, LambEmbrace, EldritchSynergy, Dread, Akimbo,
   OccultAbsorb, PlayerDamageMult,
   AdditionalHelper.Helper, AdditionalHelper]

/-- The registry state after module import: the startup registration of
every declared class in order. -/
def pilgramRegistry : Registry :=
  declaredModifiers.foldl registerModifier Registry.empty

/-- A hypothetical malformed variant definition: zero scaling divisor
(used to analyse registration-time validation). -/
def ZeroScalingClass : ModClass :=
  { NAME := some "Maldef", rarity := some .COMMON, TYPE := ModifierType.PRE_ATTACK,
    OP_ORDERING := 0, MAX_STRENGTH := 0, MIN_STRENGTH := 1, SCALING := some (0, 1) }

/-- A second hypothetical variant re-using the same display name. -/
def DupNameClass : ModClass :=
  { NAME := some "Maldef", rarity := some .RARE, TYPE := ModifierType.PRE_ATTACK,
    OP_ORDERING := 0, MAX_STRENGTH := 0, MIN_STRENGTH := 1, SCALING := some (2, 1) }

/-- Key-not-present lists have no lookup result. -/
theorem lookup_eq_none_of_not_mem {β : Type} (l : List (String × β)) (a : String)
    (h : a ∉ l.map Prod.fst) : l.lookup a = none := by
  induction l with
  | nil => rfl
  | cons p l ih =>
      simp only [List.map_cons, List.mem_cons] at h
      push_neg at h
      rw [List.lookup_cons]
      have hne : (a == p.1) = false := beq_false_of_ne h.1
      rw [hne]
      exact ih h.2

/-- In the startup registry, the id stored with each entry equals the
entry's position in `_LIST`. -/
theorem registry_id_eq_index :
    ∀ i : Fin pilgramRegistry.LIST.length, (pilgramRegistry.LIST.get i).1 = i.val := by
  decide

/-- In the startup registry, looking up an entry's display name in the
name index returns that entry's id. -/
theorem registry_name_to_id :
    ∀ i : Fin pilgramRegistry.LIST.length,
      pilgramRegistry.NAME_LUT.lookup ((pilgramRegistry.LIST.get i).2.NAME.getD "")
        = some (pilgramRegistry.LIST.get i).1 := by
  decide

/-- C1: `Modifier.apply` follows the duration countdown exactly: with
duration 0 it returns at once — state untouched, `none` (the no-op value)
returned, the behavior never executed; with positive duration it
decrements first and then executes the behavior (so the call that brings
the duration to 0 still runs it); with duration -1 it executes the
behavior without any countdown, the duration staying -1 unless the
behavior itself changes it. -/
theorem apply_duration_countdown {σ α : Type} (f : Int → σ → Int × σ × α) (s : σ) :
    Modifier.apply f 0 s = (0, s, none) ∧
    (∀ d : Int, 0 < d →
      Modifier.apply f d s = ((f (d - 1) s).1, (f (d - 1) s).2.1, some (f (d - 1) s).2.2)) ∧
    Modifier.apply f (-1) s = ((f (-1) s).1, (f (-1) s).2.1, some (f (-1) s).2.2) := by
  refine ⟨?_, ?_, ?_⟩
  · simp [Modifier.apply]
  · intro d hd
    simp [Modifier.apply, hd]
  · simp [Modifier.apply]

/-- Witness for C1 at concrete inputs: duration 5 becomes 4 and the
behavior (here: increment the state, return its double) still runs. -/
theorem apply_duration_countdown_witness :
    Modifier.apply (fun d n => (d, n + 1, n * 2)) 0 (3 : Int) = (0, 3, none) ∧
    ((0 : Int) < 5 ∧
      Modifier.apply (fun d n => (d, n + 1, n * 2)) 5 (3 : Int) = (4, 4, some 6)) ∧
    Modifier.apply (fun d n => (d, n + 1, n * 2)) (-1) (3 : Int) = (-1, 4, some 6) := by
  obtain ⟨h0, hpos, hneg⟩ :=
    apply_duration_countdown (fun d n => (d, (n : Int) + 1, n * 2)) (3 : Int)
  refine ⟨h0, ⟨by decide, ?_⟩, ?_⟩
  · rw [hpos 5 (by decide)]; decide
  · rw [hneg]; decide


/-- C2: `generate` is a pure function of the level; for every descriptor
with positive scaling `num/den` and every level, it succeeds with
strength `max(MIN_STRENGTH, MIN_STRENGTH + floor(level / SCALING))`
clamped to `MAX_STRENGTH` when `MAX_STRENGTH ≠ 0` — and every variant of
the startup catalog does have a positive scaling (so the hypothesis holds
for every registered variant descriptor). -/
theorem generate_scaling_law (c : ModClass) (level : Nat) (num den : Int)
    (hsc : c.SCALING = some (num, den)) (hnum : 0 < num) (hden : 0 < den) :
    (Modifier.generate c level =
      .ok (if c.MAX_STRENGTH ≠ 0 then
             min (max c.MIN_STRENGTH (c.MIN_STRENGTH + level * den / num)) c.MAX_STRENGTH
           else
             max c.MIN_STRENGTH (c.MIN_STRENGTH + level * den / num))) ∧
    (∀ p ∈ pilgramRegistry.LIST,
       (p.2.SCALING.any (fun sc => 0 < sc.1 && 0 < sc.2)) = true) := by
  constructor
  · have hq : ((level : Int) * den).tdiv num = (level : Int) * den / num :=
      Int.tdiv_eq_ediv (by positivity) (le_of_lt hnum)
    have hq0 : 0 ≤ (level : Int) * den / num :=
      Int.ediv_nonneg (by positivity) (le_of_lt hnum)
    simp only [Modifier.generate, hsc]
    rw [if_neg (by omega : ¬ num = 0)]
    simp only [hq]
    congr 1
    split_ifs <;> omega
  · decide

/-- Witness for C2 on the registered variant `Blessed`
(`MIN_STRENGTH = 1`, `SCALING = 2`, `MAX_STRENGTH = 50`): level 100
yields the clamped strength 50 and level 10 yields 6. -/
theorem generate_scaling_law_witness :
    Blessed.SCALING = some (2, 1) ∧ (0 : Int) < 2 ∧ (0 : Int) < 1 ∧
    Modifier.generate Blessed 100 = .ok 50 ∧
    Modifier.generate Blessed 10 = .ok 6 := by
  refine ⟨rfl, by decide, by decide, ?_, ?_⟩
  · rw [(generate_scaling_law Blessed 100 2 1 rfl (by decide) (by decide)).1]; norm_num [Blessed]
  · rw [(generate_scaling_law Blessed 10 2 1 rfl (by decide) (by decide)).1]; norm_num [Blessed]

/-- C3 counterexample: the Idiot God free revive with duration 1, applied
through `Modifier.apply` against a living defender (5 of 10 HP), ends
with duration 1 — the decrement followed by the restoring increment —
not 2 as the claim states. -/
theorem freeRevive_alive_counterexample :
    (Modifier.apply (IdiotGodBlessing.FreeRevive.function 50) 1 (⟨5, 10⟩ : CombatActor)).1 = 1 ∧
    (Modifier.apply (IdiotGodBlessing.FreeRevive.function 50) 1 (⟨5, 10⟩ : CombatActor)).1 ≠ 2 := by
  decide

/-- C3 (amended): a revive-type modifier with duration 1 applied to a
defender at 0 HP restores floor(maxHP·strength/100) HP, logs, and leaves
duration 0 (charge consumed); applied to a defender above 0 HP it
performs no healing, no log, and restores the duration to its original
value 1 (charge preserved, not incremented to 2). -/
theorem freeRevive_spec (strength maxhp hp : Int)
    (hs0 : 0 ≤ strength) (hs1 : strength ≤ 100) (hmax : 0 ≤ maxhp) (hhp : 0 < hp) :
    Modifier.apply (IdiotGodBlessing.FreeRevive.function strength) 1 (⟨0, maxhp⟩ : CombatActor)
      = (0, ⟨maxhp * strength / 100, maxhp⟩, some true) ∧
    Modifier.apply (IdiotGodBlessing.FreeRevive.function strength) 1 (⟨hp, maxhp⟩ : CombatActor)
      = (1, ⟨hp, maxhp⟩, some false) := by
  have hq : (maxhp * strength).tdiv 100 = maxhp * strength / 100 :=
    Int.tdiv_eq_ediv (by positivity) (by norm_num)
  have h0 : 0 ≤ maxhp * strength / 100 := Int.ediv_nonneg (by positivity) (by norm_num)
  have hle : maxhp * strength / 100 ≤ maxhp := by
    calc maxhp * strength / 100 ≤ maxhp * 100 / 100 :=
          Int.ediv_le_ediv (by norm_num) (by nlinarith)
      _ = maxhp := Int.mul_ediv_cancel _ (by norm_num)
  constructor
  · simp only [Modifier.apply, IdiotGodBlessing.FreeRevive.function,
      CombatActor.is_dead, CombatActor.modify_hp, CombatActor.get_max_hp]
    norm_num [hq]
    omega
  · have hne : ¬ (hp = 0) := by omega
    simp only [Modifier.apply, IdiotGodBlessing.FreeRevive.function,
      CombatActor.is_dead, CombatActor.modify_hp]
    norm_num [hne]

/-- Witness for the amended C3: strength 50, max HP 10 — the dead
defender revives to 5 HP with duration consumed; the living defender at
5 HP is untouched with the duration back at 1. -/
theorem freeRevive_spec_witness :
    ((0 : Int) ≤ 50 ∧ (50 : Int) ≤ 100 ∧ (0 : Int) ≤ 10 ∧ (0 : Int) < 5) ∧
    Modifier.apply (IdiotGodBlessing.FreeRevive.function 50) 1 (⟨0, 10⟩ : CombatActor)
      = (0, ⟨5, 10⟩, some true) ∧
    Modifier.apply (IdiotGodBlessing.FreeRevive.function 50) 1 (⟨5, 10⟩ : CombatActor)
      = (1, ⟨5, 10⟩, some false) := by
  have h := freeRevive_spec 50 10 5 (by decide) (by decide) (by decide) (by decide)
  refine ⟨⟨by decide, by decide, by decide, by decide⟩, ?_, h.2⟩
  rw [h.1]; decide

/-- C4: on mid-defend, absorption heals the defender by
floor(categoryDamage·strength/100), rounded down but at least 1 HP,
whenever the tracked category's incoming damage is positive, and writes a
log line; with the tracked category at 0 it heals nothing and writes no
log line. -/
theorem absorb_min_one_heal (strength : Int) (d : Damage) (dt : DamageType) (a : CombatActor)
    (hs : 0 ≤ strength) (hhp : 0 ≤ a.hp) :
    (0 < d.get dt →
      GenericDamageAbsorb.function strength dt d a
        = ({ a with hp := a.hp + max 1 (d.get dt * strength / 100) }, true)) ∧
    (d.get dt = 0 →
      GenericDamageAbsorb.function strength dt d a = (a, false)) := by
  constructor
  · intro hpos
    have hq : (d.get dt * strength).tdiv 100 = d.get dt * strength / 100 :=
      Int.tdiv_eq_ediv (by positivity) (by norm_num)
    have h0 : 0 ≤ d.get dt * strength / 100 := Int.ediv_nonneg (by positivity) (by norm_num)
    simp only [GenericDamageAbsorb.function, CombatActor.modify_hp, if_pos hpos, hq,
      if_true, Prod.mk.injEq, CombatActor.mk.injEq]
    refine ⟨⟨?_, trivial⟩, trivial⟩
    split_ifs <;> omega
  · intro hzero
    simp only [GenericDamageAbsorb.function, hzero]
    norm_num

/-- Witness for C4 with strength 50 against a defender at 20 of 30 HP:
10 points of the tracked category heal exactly 5 HP; 1 point heals
exactly 1 HP (minimum-floor rule); 0 points heal nothing and write no
log line. -/
theorem absorb_min_one_heal_witness :
    ((0 : Int) ≤ 50 ∧ (0 : Int) ≤ 20) ∧
    GenericDamageAbsorb.function 50 .slash ⟨10, 0, 0, 0, 0, 0, 0, 0⟩ ⟨20, 30⟩ = (⟨25, 30⟩, true) ∧
    GenericDamageAbsorb.function 50 .slash ⟨1, 0, 0, 0, 0, 0, 0, 0⟩ ⟨20, 30⟩ = (⟨21, 30⟩, true) ∧
    GenericDamageAbsorb.function 50 .slash ⟨0, 5, 0, 0, 0, 0, 0, 0⟩ ⟨20, 30⟩ = (⟨20, 30⟩, false) := by
  have h10 := absorb_min_one_heal 50 ⟨10, 0, 0, 0, 0, 0, 0, 0⟩ .slash ⟨20, 30⟩ (by decide) (by decide)
  have h1 := absorb_min_one_heal 50 ⟨1, 0, 0, 0, 0, 0, 0, 0⟩ .slash ⟨20, 30⟩ (by decide) (by decide)
  have h0 := absorb_min_one_heal 50 ⟨0, 5, 0, 0, 0, 0, 0, 0⟩ .slash ⟨20, 30⟩ (by decide) (by decide)
  refine ⟨⟨by decide, by decide⟩, ?_, ?_, ?_⟩
  · rw [h10.1 (by decide)]; decide
  · rw [h1.1 (by decide)]; decide
  · rw [h0.2 (by decide)]

/-- C5 counterexample: -1 is not the id of any registered variant (the
assigned ids are the naturals 0..59), yet `get_modifier (-1)` does not
fail — Python negative indexing silently returns a fresh instance of the
last registered variant (id 59). -/
theorem negative_id_lookup_counterexample :
    (∀ p ∈ pilgramRegistry.LIST, ((p.1 : Int) ≠ -1)) ∧
    pilgramRegistry.get_modifier (-1) 5 = .ok ⟨59, 5, -1⟩ := by
  constructor
  · decide
  · rfl

/-- C5 (amended): `get_modifier` fails with `IndexError` — a
`LookupError` — for every id outside `[-n, n-1]` (negative ids inside
that range alias registered variants via Python negative indexing), and
`get_modifier_from_name` fails with `KeyError` — a `LookupError` — for
every name that is not a registered display name. -/
theorem unknown_lookup_fails (i : Int) (name : String) (s : Int)
    (hi : (pilgramRegistry.LIST.length : Int) ≤ i ∨ i < -(pilgramRegistry.LIST.length : Int))
    (hn : name ∉ pilgramRegistry.NAME_LUT.map Prod.fst) :
    pilgramRegistry.get_modifier i s = .error .IndexError ∧
    PyErr.IndexError.isLookupError = true ∧
    pilgramRegistry.get_modifier_from_name name s = .error .KeyError ∧
    PyErr.KeyError.isLookupError = true := by
  refine ⟨?_, rfl, ?_, rfl⟩
  · unfold Registry.get_modifier pyListGet
    rw [dif_neg (by omega), dif_neg (by omega)]
  · unfold Registry.get_modifier_from_name
    rw [lookup_eq_none_of_not_mem _ _ hn]

/-- Witness for the amended C5: id 100 (beyond the 60 registered ids) and
an unregistered name both fail with their lookup errors. -/
theorem unknown_lookup_fails_witness :
    (((pilgramRegistry.LIST.length : Int) ≤ 100 ∨ (100 : Int) < -(pilgramRegistry.LIST.length : Int)) ∧
      "Bogus Name" ∉ pilgramRegistry.NAME_LUT.map Prod.fst) ∧
    pilgramRegistry.get_modifier 100 5 = .error .IndexError ∧
    pilgramRegistry.get_modifier_from_name "Bogus Name" 5 = .error .KeyError := by
  have h := unknown_lookup_fails 100 "Bogus Name" 5 (by decide) (by decide)
  exact ⟨⟨by decide, by decide⟩, h.1, h.2.2.1⟩

/-- C6 counterexample: registering a variant with a zero scaling divisor
and then a second variant re-using its display name completes without any
failure — both end up in the catalog and the name index is silently
overwritten to the later one — and the zero divisor only raises, later,
at generation time. -/
theorem register_no_validation_counterexample :
    (registerModifier (registerModifier Registry.empty ZeroScalingClass) DupNameClass).LIST
      = [(0, ZeroScalingClass), (1, DupNameClass)] ∧
    (registerModifier (registerModifier Registry.empty ZeroScalingClass) DupNameClass).NAME_LUT.lookup "Maldef"
      = some 1 ∧
    Modifier.generate ZeroScalingClass 10 = .error .ZeroDivisionError := by
  refine ⟨?_, ?_, ?_⟩ <;> rfl

/-- C6 (amended): registration performs no validation whatever — any
class carrying a rarity is appended to the catalog and its name bound
over any previous binding, malformed or not; a zero scaling divisor is
only detected when `generate` is called, raising `ZeroDivisionError`
there, not at registration/startup time. -/
theorem register_accepts_malformed (reg : Registry) (c : ModClass) (r : Rarity)
    (level : Nat) (num den : Int)
    (hr : c.rarity = some r) (hsc : c.SCALING = some (num, den)) (hz : num = 0) :
    (registerModifier reg c).LIST = reg.LIST ++ [(reg.LIST.length, c)] ∧
    (registerModifier reg c).NAME_LUT = (c.NAME.getD "", reg.LIST.length) :: reg.NAME_LUT ∧
    Modifier.generate c level = .error .ZeroDivisionError := by
  refine ⟨?_, ?_, ?_⟩
  · simp only [registerModifier, hr]
  · simp only [registerModifier, hr]
  · simp only [Modifier.generate, hsc, hz]
    rfl

/-- Witness for the amended C6 at the zero-scaling class. -/
theorem register_accepts_malformed_witness :
    (ZeroScalingClass.rarity = some .COMMON ∧ ZeroScalingClass.SCALING = some (0, 1)) ∧
    (registerModifier Registry.empty ZeroScalingClass).LIST = [(0, ZeroScalingClass)] ∧
    Modifier.generate ZeroScalingClass 7 = .error .ZeroDivisionError := by
  have h := register_accepts_malformed Registry.empty ZeroScalingClass .COMMON 7 0 1 rfl rfl rfl
  exact ⟨⟨rfl, rfl⟩, h.1, h.2.2⟩

/-- C7: `RouletteAttack.function` mutates the context-supplied damage
record in place: with strength 5 and random key "slash" on a record with
slash 100, the caller's record ends with slash overwritten to 5 — not
left unchanged, and decreased despite the variant's own description of
dealing +5 bonus damage — and the value returned is that same mutated
record (the freshly built `damage_modifier` is never filled in). -/
theorem roulette_mutates_context_damage :
    (RouletteAttack.function 5 ⟨100, 0, 0, 0, 0, 0, 0, 0⟩ .slash).1
      ≠ ⟨100, 0, 0, 0, 0, 0, 0, 0⟩ ∧
    (RouletteAttack.function 5 ⟨100, 0, 0, 0, 0, 0, 0, 0⟩ .slash).1.slash = 5 ∧
    (RouletteAttack.function 5 ⟨100, 0, 0, 0, 0, 0, 0, 0⟩ .slash).2
      = (RouletteAttack.function 5 ⟨100, 0, 0, 0, 0, 0, 0, 0⟩ .slash).1 := by
  refine ⟨by decide, rfl, by decide⟩

/-- C8: damage-multiplier effects carry ordering key 0 and flat-bonus
effects carry ordering key 1 (both as dispatch tags and as the
class-level `OP_ORDERING` of the two templates); dispatching two
multipliers and one bonus in ordering-key order equals applying both
multipliers first and then adding the bonus; and at a concrete input the
bonus-first order yields a different result (the bonus would be
multiplied). -/
theorem ordering_mult_before_bonus (s1 s2 sb : Int) (dt1 dt2 dtb : DamageType) (d : Damage) :
    (DamageEffect.mult s1 dt1).opOrdering = 0 ∧
    (DamageEffect.bonus sb dtb).opOrdering = 1 ∧
    (∀ cap mt, (GenericDamageMult.mkClass cap mt).OP_ORDERING = 0
      ∧ (GenericDamageBonus.mkClass cap mt).OP_ORDERING = 1) ∧
    dispatchInOrder [.mult s1 dt1, .bonus sb dtb, .mult s2 dt2] d
      = GenericDamageBonus.function sb dtb
          (GenericDamageMult.function s2 dt2 (GenericDamageMult.function s1 dt1 d)) ∧
    dispatchInOrder [.mult 100 .slash, .bonus 5 .slash, .mult 100 .slash]
        ⟨10, 0, 0, 0, 0, 0, 0, 0⟩
      ≠ GenericDamageMult.function 100 .slash (GenericDamageMult.function 100 .slash
          (GenericDamageBonus.function 5 .slash ⟨10, 0, 0, 0, 0, 0, 0, 0⟩)) := by
  refine ⟨rfl, rfl, fun cap mt => ⟨rfl, rfl⟩, rfl, by decide⟩

set_option maxHeartbeats 2000000 in
set_option maxRecDepth 4000 in
/-- C9: after startup registration, the assigned ids are pairwise
distinct and the display names are pairwise distinct; every registered
variant sits in exactly one of the four rarity tiers and the tiers
together are exactly the catalog; and the nested sub-effect classes
(declared without a rarity) appear in no tier, not in the id catalog, and
not in the name index. -/
theorem registry_partition_invariants :
    (pilgramRegistry.LIST.map Prod.fst).Nodup ∧
    (pilgramRegistry.LIST.map (fun p => p.2.NAME)).Nodup ∧
    (∀ p ∈ pilgramRegistry.LIST,
       ((pilgramRegistry.common.map Prod.fst).count p.1 +
        (pilgramRegistry.uncommon.map Prod.fst).count p.1 +
        (pilgramRegistry.rare.map Prod.fst).count p.1 +
        (pilgramRegistry.legendary.map Prod.fst).count p.1) = 1) ∧
    (pilgramRegistry.common.length + pilgramRegistry.uncommon.length +
      pilgramRegistry.rare.length + pilgramRegistry.legendary.length
      = pilgramRegistry.LIST.length) ∧
    (∀ c ∈ declaredModifiers, c.rarity = none →
       (∀ p ∈ pilgramRegistry.LIST, p.2 ≠ c) ∧
       (∀ p ∈ pilgramRegistry.common, p.2 ≠ c) ∧
       (∀ p ∈ pilgramRegistry.uncommon, p.2 ≠ c) ∧
       (∀ p ∈ pilgramRegistry.rare, p.2 ≠ c) ∧
       (∀ p ∈ pilgramRegistry.legendary, p.2 ≠ c) ∧
       pilgramRegistry.NAME_LUT.lookup (c.NAME.getD "") = none) := by
  decide

/-- C10: for every in-range id `i` and strength `s`, `get_modifier`
returns a fresh instance with class id `i`, strength `s` and permanent
duration -1; looking up that variant's display name returns the identical
instance (the id/name round-trip); both lookups are pure functions of the
registry value, which they leave unchanged. -/
theorem lookup_round_trip (i : Nat) (hi : i < pilgramRegistry.LIST.length) (s : Int) :
    pilgramRegistry.get_modifier i s = .ok ⟨i, s, -1⟩ ∧
    pilgramRegistry.get_modifier_from_name
        ((pilgramRegistry.LIST.get ⟨i, hi⟩).2.NAME.getD "") s = .ok ⟨i, s, -1⟩ := by
  constructor
  · have h3 := registry_id_eq_index ⟨i, hi⟩
    simp only [List.get_eq_getElem] at h3
    unfold Registry.get_modifier pyListGet
    rw [dif_pos (by omega : (0 : Int) ≤ (i : Int) ∧ (i : Int) < pilgramRegistry.LIST.length)]
    simp [h3]
  · unfold Registry.get_modifier_from_name
    rw [registry_name_to_id ⟨i, hi⟩, registry_id_eq_index ⟨i, hi⟩]

/-- Witness for C10 at id 42 ("Blessed") with strength 7. -/
theorem lookup_round_trip_witness :
    (42 < pilgramRegistry.LIST.length) ∧
    pilgramRegistry.get_modifier 42 7 = .ok ⟨42, 7, -1⟩ ∧
    pilgramRegistry.get_modifier_from_name "Blessed" 7 = .ok ⟨42, 7, -1⟩ := by
  have h := lookup_round_trip 42 (by decide) 7
  exact ⟨by decide, h.1, h.2⟩
